import Mathlib

/-!
Verification of `retry-request` (googleapis/retry-request).

The embedding follows the newest implementation under `src`
(`src/unnamed/part_002`, whose retry loop is shared verbatim with
`src/index.js` for the response path):

* `DEFAULTS` / `shouldRetryFnDefault` — `src/index.js` lines 8–15,
  `src/unnamed/part_002` lines 6–14.
* `run` — the `makeRequest`/`onResponse` loop of
  `src/unnamed/part_002` lines 84–141 (callback mode), with the
  transport modelled as a function from the 1-based attempt ordinal to
  the single outcome that attempt produces.
* `getNextRetryDelay` — `src/index.js` lines 110–112 /
  `src/unnamed/part_002` lines 146–148.

`part_002` hardcodes `MAX_NO_RESPONSE_RETRIES = 2`; the type
declaration (`src/unnamed/part_003`) and the tests (`src/test.js`)
expose it as the `noResponseRetries` option with default 2, so the
budget is carried in the configuration here, with default 2.
-/

namespace RetryRequest

/-- The outcome of one physical attempt, as normalized by `onResponse`:
either a transport-level error (`err` truthy, e.g. DNS failure) or a
response together with a body. -/
inductive Outcome (ε ρ β : Type) : Type where
  | failure : ε → Outcome ε ρ β
  | responded : ρ → β → Outcome ε ρ β

/-- The terminal result surfaced to the caller: `callback(err, ...)` on
transport-budget exhaustion, or `callback(null, response, body)` on
commit. -/
inductive RunResult (ε ρ β : Type) : Type where
  | err : ε → RunResult ε ρ β
  | ok : ρ → β → RunResult ε ρ β

/-- The configuration fields of `opts` that drive the retry loop.
`retries` is the policy-retry budget (`opts.retries`, default 2);
`noResponseRetries` is the transport-failure budget
(`MAX_NO_RESPONSE_RETRIES = 2` in `src/unnamed/part_002`, the
`noResponseRetries` option with default 2 in the declaration and
tests); `shouldRetryFn` is the application-level retry predicate. -/
structure Config (ρ : Type) : Type where
  retries : Nat
  noResponseRetries : Nat
  shouldRetryFn : ρ → Bool

/-- The default `shouldRetryFn` of `src/index.js` lines 11–14 and
`src/unnamed/part_002` lines 10–13:
`response.statusCode < 200 || response.statusCode >= 400`. -/
def shouldRetryFnDefault (statusCode : Int) : Bool :=
  statusCode < 200 || statusCode ≥ 400

/-- The module-level `DEFAULTS` retry configuration: `retries: 2`,
transport-failure budget 2, and the default `shouldRetryFn`. -/
def DEFAULTS : Config Int :=
  { retries := 2
    noResponseRetries := 2
    shouldRetryFn := shouldRetryFnDefault }

/-- The `makeRequest`/`onResponse` loop of `src/unnamed/part_002`
(callback mode), lines 84–141.  `transport n` is the outcome of the
`n`-th physical attempt (1-based).  `numAttempts` and
`numNoResponseAttempts` are the two mutable counters *before* the next
attempt is started; `makeRequest` increments `numAttempts`, then
`onResponse` either schedules a retry (`numNoResponseAttempts++` and
`numNoResponseAttempts <= noResponseRetries` on a transport failure;
`numAttempts <= opts.retries && opts.shouldRetryFn(response)` on a
response) or terminates.  Returns the final value of `numAttempts`
(total attempts made) together with the surfaced result. -/
def run (cfg : Config ρ) (transport : Nat → Outcome ε ρ β)
    (numAttempts numNoResponseAttempts : Nat) : Nat × RunResult ε ρ β :=
  match transport (numAttempts + 1) with
  | Outcome.failure e =>
      if _h : numNoResponseAttempts + 1 ≤ cfg.noResponseRetries then
        run cfg transport (numAttempts + 1) (numNoResponseAttempts + 1)
      else
        (numAttempts + 1, RunResult.err e)
  | Outcome.responded r b =>
      if _h : numAttempts + 1 ≤ cfg.retries ∧ cfg.shouldRetryFn r = true then
        run cfg transport (numAttempts + 1) numNoResponseAttempts
      else
        (numAttempts + 1, RunResult.ok r b)
termination_by
  (cfg.retries + 1 - numAttempts) + (cfg.noResponseRetries + 1 - numNoResponseAttempts)
decreasing_by
  · omega
  · omega

/-- The standalone backoff helper of `src/index.js` lines 110–112 /
`src/unnamed/part_002` lines 146–148:
`Math.pow(2, retryNumber) * 1000 + Math.floor(Math.random() * 1000)`.
The jitter argument `j` stands for `Math.random() * 1000`, a value in
`[0, 1000)`. -/
def getNextRetryDelay (retryNumber : Nat) (j : ℚ) : ℤ :=
  2 ^ retryNumber * 1000 + ⌊j⌋

/-- Modelled from the spec: the configuration-driven
`getNextRetryDelay({retryNumber, retryDelayMultiplier, maxRetryDelay,
timeOfFirstRequest, totalTimeout})` helper of the current entry point
is not among the implementation files under `src` (only its tests in
`src/test.js` and its declaration in `src/unnamed/part_003` are).
Spec §4.1: the raw delay is
`min(delayMultiplierBase^attemptNumber * 1000 + jitter,
maxDelaySeconds * 1000)`, further capped so that
`elapsedSinceFirstAttempt + result ≤ totalTimeoutSeconds * 1000`.
`elapsedMs` stands for `Date.now() - timeOfFirstRequest`; `j` is the
jitter, `Math.random() * 1000`. -/
def getNextRetryDelayCfg (retryDelayMultiplier : ℚ) (retryNumber : Nat)
    (maxRetryDelay totalTimeout elapsedMs : ℚ) (j : ℚ) : ℚ :=
  min (min (retryDelayMultiplier ^ retryNumber * 1000 + (⌊j⌋ : ℚ))
      (maxRetryDelay * 1000))
    (totalTimeout * 1000 - elapsedMs)

/-- Observable events of a callback-mode execution: one
`attemptStarted` per call of `makeRequest`
(`src/unnamed/part_002` line 84, `numAttempts++` then
`opts.request(requestOpts, onResponse)`), and one `callbackInvoked`
for each call of the caller's completion callback in `onResponse`
(`src/unnamed/part_002` lines 121 and 139). -/
inductive CbEv (ε ρ β : Type) : Type where
  | attemptStarted : CbEv ε ρ β
  | callbackInvoked : RunResult ε ρ β → CbEv ε ρ β

/-- The event trace of the callback-mode loop of
`src/unnamed/part_002`: the same recursion as `run`, recording each
started attempt and each invocation of the caller's callback. -/
def cbTrace (cfg : Config ρ) (transport : Nat → Outcome ε ρ β)
    (numAttempts numNoResponseAttempts : Nat) : List (CbEv ε ρ β) :=
  CbEv.attemptStarted ::
    match transport (numAttempts + 1) with
    | Outcome.failure e =>
        if _h : numNoResponseAttempts + 1 ≤ cfg.noResponseRetries then
          cbTrace cfg transport (numAttempts + 1) (numNoResponseAttempts + 1)
        else
          [CbEv.callbackInvoked (RunResult.err e)]
    | Outcome.responded r b =>
        if _h : numAttempts + 1 ≤ cfg.retries ∧ cfg.shouldRetryFn r = true then
          cbTrace cfg transport (numAttempts + 1) numNoResponseAttempts
        else
          [CbEv.callbackInvoked (RunResult.ok r b)]
termination_by
  (cfg.retries + 1 - numAttempts) + (cfg.noResponseRetries + 1 - numNoResponseAttempts)
decreasing_by
  · omega
  · omega

/-- Recognizer for `callbackInvoked` events. -/
def CbEv.isCallbackInvoked : CbEv ε ρ β → Bool
  | CbEv.callbackInvoked _ => true
  | _ => false

/-- Recognizer for `attemptStarted` events. -/
def CbEv.isAttemptStarted : CbEv ε ρ β → Bool
  | CbEv.attemptStarted => true
  | _ => false

/-- Observable events on the external stream (`retryStream`) in
streaming mode:  `response` and the forwarded `complete`
(`src/unnamed/part_002` lines 94 and 136–137), `error` on
transport-budget exhaustion (line 118), and `request`.  The `request`
notification is modelled from the spec: the current entry point emits
`request` once per physical attempt started (spec §4.3, §6; tested by
`src/test.js` — "emits a request event on each request"), but the
implementation file that emits it is not under `src`
(`src/unnamed/part_002` starts each attempt without emitting it). -/
inductive StreamEv (ε ρ β : Type) : Type where
  | request : StreamEv ε ρ β
  | response : ρ → StreamEv ε ρ β
  | complete : StreamEv ε ρ β
  | error : ε → StreamEv ε ρ β

/-- The event trace of the streaming-mode loop of
`src/unnamed/part_002` (same recursion as `run`): one `request` per
attempt started (modelled from the spec, see `StreamEv`); on commit,
`response` followed by `complete` with the final attempt's data; on
transport-budget exhaustion, a single `error`. -/
def streamTrace (cfg : Config ρ) (transport : Nat → Outcome ε ρ β)
    (numAttempts numNoResponseAttempts : Nat) : List (StreamEv ε ρ β) :=
  StreamEv.request ::
    match transport (numAttempts + 1) with
    | Outcome.failure e =>
        if _h : numNoResponseAttempts + 1 ≤ cfg.noResponseRetries then
          streamTrace cfg transport (numAttempts + 1) (numNoResponseAttempts + 1)
        else
          [StreamEv.error e]
    | Outcome.responded r _b =>
        if _h : numAttempts + 1 ≤ cfg.retries ∧ cfg.shouldRetryFn r = true then
          streamTrace cfg transport (numAttempts + 1) numNoResponseAttempts
        else
          [StreamEv.response r, StreamEv.complete]
termination_by
  (cfg.retries + 1 - numAttempts) + (cfg.noResponseRetries + 1 - numNoResponseAttempts)
decreasing_by
  · omega
  · omega

/-- Recognizer for `request` events. -/
def StreamEv.isRequest : StreamEv ε ρ β → Bool
  | StreamEv.request => true
  | _ => false

/-- Recognizer for `response` events. -/
def StreamEv.isResponse : StreamEv ε ρ β → Bool
  | StreamEv.response _ => true
  | _ => false

/-- Recognizer for `complete` events. -/
def StreamEv.isComplete : StreamEv ε ρ β → Bool
  | StreamEv.complete => true
  | _ => false

/-- The phase of a callback-mode session between scheduler events: an
attempt is physically in flight, a retry timer armed by
`retryAfterDelay` (`src/unnamed/part_002` lines 101–107) is pending,
or the session has delivered its terminal result. -/
inductive Phase (ε ρ β : Type) : Type where
  | inFlight : Phase ε ρ β
  | timerArmed : Phase ε ρ β
  | finished : RunResult ε ρ β → Phase ε ρ β

/-- The mutable state of one callback-mode session of
`src/unnamed/part_002`: the two counters, the phase, and the number of
times `activeRequest.abort()` has been invoked on the transport
(observable effect of the returned handle's `abort`). -/
structure SessionState (ε ρ β : Type) : Type where
  numAttempts : Nat
  numNoResponseAttempts : Nat
  phase : Phase ε ρ β
  transportAborts : Nat

/-- Scheduler events a callback-mode session reacts to: the in-flight
attempt's outcome arriving at `onResponse`, the armed `setTimeout`
firing (running `makeRequest`), and the caller invoking the returned
handle's `abort`. -/
inductive Action (ε ρ β : Type) : Type where
  | outcomeArrives : Outcome ε ρ β → Action ε ρ β
  | timerFires : Action ε ρ β
  | abortCalled : Action ε ρ β

/-- One scheduler step of the callback-mode session of
`src/unnamed/part_002`.
`abortCalled` runs `retryRequest.abort` (lines 48–54): it invokes
`activeRequest.abort()` when an `activeRequest` exists — `activeRequest`
is assigned on every `makeRequest` (line 97) and never cleared, so it
exists from the first attempt on (here: the transport is assumed to
offer `abort`); nothing else in the state is touched — in particular no
armed timer is cleared and no terminal flag is set.
`timerFires` runs the `setTimeout(makeRequest, ...)` callback of
`retryAfterDelay` (line 106): `numAttempts++` and a new attempt goes in
flight.
`outcomeArrives` runs `onResponse` (lines 109–141) on the in-flight
attempt's outcome. -/
def step (cfg : Config ρ) (s : SessionState ε ρ β) :
    Action ε ρ β → SessionState ε ρ β
  | Action.abortCalled =>
      if 1 ≤ s.numAttempts then
        { s with transportAborts := s.transportAborts + 1 }
      else
        s
  | Action.timerFires =>
      match s.phase with
      | Phase.timerArmed =>
          { s with numAttempts := s.numAttempts + 1, phase := Phase.inFlight }
      | _ => s
  | Action.outcomeArrives o =>
      match s.phase with
      | Phase.inFlight =>
          match o with
          | Outcome.failure e =>
              if s.numNoResponseAttempts + 1 ≤ cfg.noResponseRetries then
                { s with
                    numNoResponseAttempts := s.numNoResponseAttempts + 1
                    phase := Phase.timerArmed }
              else
                { s with
                    numNoResponseAttempts := s.numNoResponseAttempts + 1
                    phase := Phase.finished (RunResult.err e) }
          | Outcome.responded r b =>
              if s.numAttempts ≤ cfg.retries ∧ cfg.shouldRetryFn r = true then
                { s with phase := Phase.timerArmed }
              else
                { s with phase := Phase.finished (RunResult.ok r b) }
      | _ => s

/-- The session state right after the entry point's initial
`makeRequest()` (`src/unnamed/part_002` line 61): attempt 1 in
flight. -/
def initialState : SessionState ε ρ β :=
  { numAttempts := 1
    numNoResponseAttempts := 0
    phase := Phase.inFlight
    transportAborts := 0 }

/-- Folding a sequence of scheduler events over a session state. -/
def runActions (cfg : Config ρ) (s : SessionState ε ρ β)
    (acts : List (Action ε ρ β)) : SessionState ε ρ β :=
  acts.foldl (step cfg) s

/-- The option properties the entry point's prologue
(`src/unnamed/part_002` lines 16–36) may write onto the options object.
`none` models a field the prologue's `typeof` test treats as unset
(`undefined`, or for `retries` any non-number).  Function and transport
values are abstracted by numeric identifiers, which suffices to track
which object each write lands on. -/
structure OptsRecord : Type where
  objectMode : Option Bool
  request : Option Nat
  retries : Option Nat
  shouldRetryFn : Option Nat

/-- The module-level `DEFAULTS` object (`src/unnamed/part_002` lines
6–14) as an `OptsRecord`: every field present (`objectMode: false`,
`request`, `retries: 2`, `shouldRetryFn`); identifier 0 denotes the
default `request` module and the default predicate. -/
def DEFAULTSobj : OptsRecord :=
  { objectMode := some false
    request := some 0
    retries := some 2
    shouldRetryFn := some 0 }

/-- The heap reference of the shared module-level `DEFAULTS` object. -/
def defaultsRef : Nat := 0

/-- The three call shapes of the `opts` argument position:
a caller-supplied options object, a function (the caller passed the
callback in the `opts` position), or nothing. -/
inductive OptsArg : Type where
  | given : Nat → OptsArg
  | functionArg : Nat → OptsArg
  | omitted : OptsArg

/-- Which object the prologue's defaulting writes land on
(`src/unnamed/part_002` lines 19–23): `if (typeof opts === 'function')
callback = opts` reassigns only `callback`, leaving `opts` bound to the
caller's function object; `opts = opts || DEFAULTS` replaces only a
missing (falsy) `opts` — a function is truthy — with the module-level
`DEFAULTS` object itself, not a copy. -/
def optsTargetRef : OptsArg → Nat
  | OptsArg.given r => r
  | OptsArg.functionArg r => r
  | OptsArg.omitted => defaultsRef

/-- The in-place defaulting writes of the prologue
(`src/unnamed/part_002` lines 25–36): each field found unset by its
`typeof` test is assigned the corresponding `DEFAULTS` field on the
very object `opts` refers to. -/
def normalizeOpts (o : OptsRecord) : OptsRecord :=
  { objectMode := match o.objectMode with
      | none => DEFAULTSobj.objectMode
      | some v => some v
    request := match o.request with
      | none => DEFAULTSobj.request
      | some v => some v
    retries := match o.retries with
      | none => DEFAULTSobj.retries
      | some v => some v
    shouldRetryFn := match o.shouldRetryFn with
      | none => DEFAULTSobj.shouldRetryFn
      | some v => some v }

/-- The whole prologue of `retryRequest` over an explicit heap of
objects (references are `Nat`): resolve which object `opts` denotes,
mutate it in place by the defaulting writes, and return the new heap
together with the reference the session keeps using. -/
def setupOpts (heap : Nat → OptsRecord) (a : OptsArg) :
    (Nat → OptsRecord) × Nat :=
  let ref := optsTargetRef a
  (Function.update heap ref (normalizeOpts (heap ref)), ref)

/-- The events the streaming loop emits after the retry decision is
final: `error` on transport-budget exhaustion, `response` then
`complete` on commit. -/
def terminalEvents : RunResult ε ρ β → List (StreamEv ε ρ β)
  | RunResult.err e => [StreamEv.error e]
  | RunResult.ok r _ => [StreamEv.response r, StreamEv.complete]

/-- A transport whose every attempt yields a 503 response (the
always-retryable scenario of the tests, "never succeeds"). -/
def alwaysFiveOhThree : Nat → Outcome Nat Int Nat :=
  fun _ => Outcome.responded 503 0

/-- A transport whose `n`-th attempt fails with the transport-level
error value `n` (so the surfaced error identifies the attempt it came
from). -/
def failEachAttempt : Nat → Outcome Nat Int Nat :=
  fun n => Outcome.failure n

/-- A transport that returns a retryable 503 on attempt 1 and a
committing 200 from attempt 2 on. -/
def succeedsOnSecond : Nat → Outcome Nat Int Nat :=
  fun n => if n = 1 then Outcome.responded 503 0 else Outcome.responded 200 0

/-- A transport that fails at the transport level on attempts 1 and 2
(error value = attempt ordinal) and returns a retryable 503 from
attempt 3 on. -/
def twoFailuresThenRetryable : Nat → Outcome Nat Int Nat :=
  fun n => if n ≤ 2 then Outcome.failure n else Outcome.responded 503 0

/-- A transport that returns a retryable 503 on attempts 1 and 2 and
fails at the transport level (error value = attempt ordinal) from
attempt 3 on. -/
def retryableThenFailures : Nat → Outcome Nat Int Nat :=
  fun n => if n ≤ 2 then Outcome.responded 503 0 else Outcome.failure n

/-- A scheduler history in which attempt 1 yields a retryable 503, the
caller then calls `abort()` while the retry timer is armed, the timer
nevertheless fires, and attempt 2 yields a committing 200. -/
def abortScenario : List (Action Nat Int Nat) :=
  [Action.outcomeArrives (Outcome.responded 503 0),
   Action.abortCalled,
   Action.timerFires,
   Action.outcomeArrives (Outcome.responded 200 0)]

/-- A concrete session state with a retry timer armed after one
attempt. -/
def armedState : SessionState Nat Int Nat :=
  { numAttempts := 1
    numNoResponseAttempts := 0
    phase := Phase.timerArmed
    transportAborts := 0 }

/-- An options object with none of the defaultable properties set. -/
def emptyOptsRecord : OptsRecord :=
  { objectMode := none, request := none, retries := none, shouldRetryFn := none }

end RetryRequest

namespace RetryRequest

/-- Every execution of the loop makes at least one attempt: the final
`numAttempts` counter is at least one more than its starting value. -/
theorem run_fst_ge (cfg : Config ρ) (t : Nat → Outcome ε ρ β) :
    ∀ a nr, a + 1 ≤ (run cfg t a nr).1 := by
  intro a nr
  induction a, nr using run.induct cfg t with
  | case1 a nr e ht hg ih =>
      rw [run]; simp only [ht]; rw [dif_pos hg]; omega
  | case2 a nr e ht hg =>
      rw [run]; simp only [ht]; rw [dif_neg hg]
  | case3 a nr r b ht hg ih =>
      rw [run]; simp only [ht]; rw [dif_pos hg]; omega
  | case4 a nr r b ht hg =>
      rw [run]; simp only [ht]; rw [dif_neg hg]

/-- Budget invariant of the loop: the final `numAttempts` counter never
exceeds `max (start + 1) (retries + 1)` plus the remaining
transport-failure budget. -/
theorem run_fst_le (cfg : Config ρ) (t : Nat → Outcome ε ρ β) :
    ∀ a nr, (run cfg t a nr).1 ≤ max (a + 1) (cfg.retries + 1) + (cfg.noResponseRetries - nr) := by
  intro a nr
  induction a, nr using run.induct cfg t with
  | case1 a nr e ht hg ih =>
      rw [run]; simp only [ht]; rw [dif_pos hg]; omega
  | case2 a nr e ht hg =>
      rw [run]; simp only [ht]; rw [dif_neg hg]; simp; omega
  | case3 a nr r b ht hg ih =>
      rw [run]; simp only [ht]; rw [dif_pos hg]; omega
  | case4 a nr r b ht hg =>
      rw [run]; simp only [ht]; rw [dif_neg hg]; simp; omega

/-- When every attempt yields a response the predicate flags
retry-worthy, the loop started with `numAttempts = a ≤ retries` runs
to attempt `retries + 1` and commits that attempt's response. -/
theorem run_all_retryable_aux (cfg : Config ρ) (t : Nat → Outcome ε ρ β)
    (hall : ∀ n, ∃ r b, t n = Outcome.responded r b ∧ cfg.shouldRetryFn r = true)
    (r : ρ) (b : β) (hfin : t (cfg.retries + 1) = Outcome.responded r b) :
    ∀ a nr, a ≤ cfg.retries →
      run cfg t a nr = (cfg.retries + 1, RunResult.ok r b) := by
  intro a nr
  induction a, nr using run.induct cfg t with
  | case1 a nr e ht hg ih =>
      intro ha
      obtain ⟨r1, b1, ht1, hs1⟩ := hall (a + 1)
      rw [ht] at ht1
      exact absurd ht1 (by simp)
  | case2 a nr e ht hg =>
      intro ha
      obtain ⟨r1, b1, ht1, hs1⟩ := hall (a + 1)
      rw [ht] at ht1
      exact absurd ht1 (by simp)
  | case3 a nr r1 b1 ht hg ih =>
      intro ha
      rw [run]; simp only [ht]; rw [dif_pos hg]
      exact ih (by omega)
  | case4 a nr r1 b1 ht hg =>
      intro ha
      obtain ⟨r2, b2, ht2, hs2⟩ := hall (a + 1)
      rw [ht] at ht2
      obtain ⟨hr, hb⟩ := Outcome.responded.inj ht2
      subst hr
      have hle : ¬ (a + 1 ≤ cfg.retries) := fun hc => hg ⟨hc, hs2⟩
      have ha1 : a = cfg.retries := by omega
      rw [run]; simp only [ht]; rw [dif_neg hg]
      subst ha1
      rw [hfin] at ht
      obtain ⟨hr2, hb2⟩ := Outcome.responded.inj ht.symm
      rw [hr2, hb2]

/-- When every attempt fails at the transport level, the loop started
with `numNoResponseAttempts = nr ≤ noResponseRetries` makes exactly
`noResponseRetries + 1 - nr` further attempts and surfaces the last
attempt's error value. -/
theorem run_all_failures_aux (cfg : Config ρ) (t : Nat → Outcome ε ρ β)
    (hall : ∀ n, ∃ e, t n = Outcome.failure e) :
    ∀ a nr, nr ≤ cfg.noResponseRetries →
      ∀ e, t (a + (cfg.noResponseRetries + 1 - nr)) = Outcome.failure e →
      run cfg t a nr = (a + (cfg.noResponseRetries + 1 - nr), RunResult.err e) := by
  intro a nr
  induction a, nr using run.induct cfg t with
  | case1 a nr e1 ht hg ih =>
      intro hnr e hfin
      have hidx : (a + 1) + (cfg.noResponseRetries + 1 - (nr + 1)) =
          a + (cfg.noResponseRetries + 1 - nr) := by omega
      rw [run]; simp only [ht]; rw [dif_pos hg]
      have := ih (by omega) e (by rw [hidx]; exact hfin)
      rw [this, hidx]
  | case2 a nr e1 ht hg =>
      intro hnr e hfin
      have hnr2 : nr = cfg.noResponseRetries := by omega
      have hidx : a + (cfg.noResponseRetries + 1 - nr) = a + 1 := by omega
      rw [hidx] at hfin
      rw [ht] at hfin
      obtain he := Outcome.failure.inj hfin
      rw [run]; simp only [ht]; rw [dif_neg hg]
      rw [hidx, he]
  | case3 a nr r b ht hg ih =>
      intro hnr e hfin
      obtain ⟨e1, ht1⟩ := hall (a + 1)
      rw [ht] at ht1
      exact absurd ht1 (by simp)
  | case4 a nr r b ht hg =>
      intro hnr e hfin
      obtain ⟨e1, ht1⟩ := hall (a + 1)
      rw [ht] at ht1
      exact absurd ht1 (by simp)

/-- Counting with a predicate over a replicated list. -/
theorem countP_replicate (p : α → Bool) (n : Nat) (a : α) :
    List.countP p (List.replicate n a) = if p a then n else 0 := by
  induction n with
  | zero => simp
  | succ m ih =>
      rw [List.replicate_succ, List.countP_cons, ih]
      split <;> simp_all

/-- The streaming trace is one `request` per attempt the loop makes,
followed by the terminal events of the loop's result. -/
theorem streamTrace_eq_run (cfg : Config ρ) (t : Nat → Outcome ε ρ β) :
    ∀ a nr, streamTrace cfg t a nr =
      List.replicate ((run cfg t a nr).1 - a) StreamEv.request ++
        terminalEvents (run cfg t a nr).2 := by
  intro a nr
  induction a, nr using run.induct cfg t with
  | case1 a nr e ht hg ih =>
      have hrun : run cfg t a nr = run cfg t (a + 1) (nr + 1) := by
        rw [run]; simp only [ht]; rw [dif_pos hg]
      have hge := run_fst_ge cfg t (a + 1) (nr + 1)
      have hrep : (run cfg t (a + 1) (nr + 1)).1 - a =
          ((run cfg t (a + 1) (nr + 1)).1 - (a + 1)) + 1 := by omega
      rw [streamTrace]; simp only [ht]; rw [dif_pos hg]
      rw [hrun, hrep, List.replicate_succ, ih]
      simp
  | case2 a nr e ht hg =>
      have hrun : run cfg t a nr = (a + 1, RunResult.err e) := by
        rw [run]; simp only [ht]; rw [dif_neg hg]
      rw [streamTrace]; simp only [ht]; rw [dif_neg hg]
      rw [hrun]
      simp [terminalEvents]
  | case3 a nr r b ht hg ih =>
      have hrun : run cfg t a nr = run cfg t (a + 1) nr := by
        rw [run]; simp only [ht]; rw [dif_pos hg]
      have hge := run_fst_ge cfg t (a + 1) nr
      have hrep : (run cfg t (a + 1) nr).1 - a =
          ((run cfg t (a + 1) nr).1 - (a + 1)) + 1 := by omega
      rw [streamTrace]; simp only [ht]; rw [dif_pos hg]
      rw [hrun, hrep, List.replicate_succ, ih]
      simp
  | case4 a nr r b ht hg =>
      have hrun : run cfg t a nr = (a + 1, RunResult.ok r b) := by
        rw [run]; simp only [ht]; rw [dif_neg hg]
      rw [streamTrace]; simp only [ht]; rw [dif_neg hg]
      rw [hrun]
      simp [terminalEvents]

/-- Every callback-mode trace of the loop contains exactly one
invocation of the caller's completion callback. -/
theorem cbTrace_callback_count (cfg : Config ρ) (t : Nat → Outcome ε ρ β) :
    ∀ a nr, List.countP CbEv.isCallbackInvoked (cbTrace cfg t a nr) = 1 := by
  intro a nr
  induction a, nr using run.induct cfg t with
  | case1 a nr e ht hg ih =>
      rw [cbTrace]; simp only [ht]; rw [dif_pos hg]
      rw [List.countP_cons]
      simp [CbEv.isCallbackInvoked, ih]
  | case2 a nr e ht hg =>
      rw [cbTrace]; simp only [ht]; rw [dif_neg hg]
      simp [List.countP_cons, CbEv.isCallbackInvoked]
  | case3 a nr r b ht hg ih =>
      rw [cbTrace]; simp only [ht]; rw [dif_pos hg]
      rw [List.countP_cons]
      simp [CbEv.isCallbackInvoked, ih]
  | case4 a nr r b ht hg =>
      rw [cbTrace]; simp only [ht]; rw [dif_neg hg]
      simp [List.countP_cons, CbEv.isCallbackInvoked]

/-- Claim C1: with policy-retry budget `retries = R` and a transport
that on every attempt produces a response the `shouldRetryFn` predicate
flags retry-worthy, the logical request performs exactly `R + 1` total
attempts and then commits, surfacing the final attempt's response; no
further attempt is started after the `(R+1)`-th outcome. -/
theorem always_retryable_uses_full_policy_budget (cfg : Config ρ)
    (t : Nat → Outcome ε ρ β)
    (hall : ∀ n, ∃ r b, t n = Outcome.responded r b ∧ cfg.shouldRetryFn r = true)
    (r : ρ) (b : β) (hfin : t (cfg.retries + 1) = Outcome.responded r b) :
    run cfg t 0 0 = (cfg.retries + 1, RunResult.ok r b) :=
  run_all_retryable_aux cfg t hall r b hfin 0 0 (Nat.zero_le _)

/-- Claim C1 witness: under the default configuration (retries = 2), a
transport answering 503 on every attempt yields 3 total attempts and
surfaces the final 503 response. -/
theorem always_retryable_witness :
    run DEFAULTS alwaysFiveOhThree 0 0 = (3, RunResult.ok 503 0) :=
  always_retryable_uses_full_policy_budget DEFAULTS alwaysFiveOhThree
    (fun _ => ⟨503, 0, rfl, by decide⟩) 503 0 rfl

/-- Claim C2: with a transport that fails on every attempt with a
transport-level error, the logical request makes exactly
`noResponseRetries + 1` total attempts (default 2 extra retries, so 3
attempts) and surfaces the last transport error encountered — the very
error value the final attempt produced, never a synthesized one. -/
theorem always_failing_surfaces_last_transport_error (cfg : Config ρ)
    (t : Nat → Outcome ε ρ β)
    (hall : ∀ n, ∃ e, t n = Outcome.failure e)
    (e : ε) (hfin : t (cfg.noResponseRetries + 1) = Outcome.failure e) :
    run cfg t 0 0 = (cfg.noResponseRetries + 1, RunResult.err e) := by
  have hidx : 0 + (cfg.noResponseRetries + 1 - 0) = cfg.noResponseRetries + 1 := by omega
  have h := run_all_failures_aux cfg t hall 0 0 (Nat.zero_le _) e (by rw [hidx]; exact hfin)
  rw [h, hidx]

/-- Claim C2 witness: under the default configuration, a transport
whose `n`-th attempt fails with error value `n` yields 3 total attempts
and surfaces error value 3 — the last attempt's error. -/
theorem always_failing_witness :
    run DEFAULTS failEachAttempt 0 0 = (3, RunResult.err 3) :=
  always_failing_surfaces_last_transport_error DEFAULTS failEachAttempt
    (fun n => ⟨n, rfl⟩) 3 rfl

/-- Claim C3 counterexample: status 404 lies in the range 400–428 that
the claim asserts is never retried, yet the default `shouldRetryFn`
(`statusCode < 200 || statusCode >= 400`) flags it retry-worthy. -/
theorem default_predicate_retries_404 :
    ((400:Int) ≤ 404 ∧ (404:Int) ≤ 428) ∧ shouldRetryFnDefault 404 = true := by
  decide

/-- Claim C3 (amended): the default `shouldRetryFn` returns true
exactly when the status code is outside `[200, 400)`, i.e. below 200 or
at least 400 — which subsumes 429 and `[500, 600)` but also flags every
ordinary 4xx client error (400–428, 430–499) as retry-worthy. -/
theorem default_predicate_range_iff (s : Int) :
    shouldRetryFnDefault s = true ↔ s < 200 ∨ 400 ≤ s := by
  simp [shouldRetryFnDefault, Bool.or_eq_true, decide_eq_true_eq, ge_iff_le]

/-- Claim C4 counterexample: under the defaults, two transport failures
followed by retryable 503 responses do NOT all get retried — the policy
guard compares `numAttempts` (which counted the two failed attempts)
against `retries = 2`, so the 503 of attempt 3 commits immediately: 3
total attempts, not 2 + 2 + 1 = 5. -/
theorem failures_first_commit_third_attempt :
    run DEFAULTS twoFailuresThenRetryable 0 0 = (3, RunResult.ok 503 0) := by
  simp [run, twoFailuresThenRetryable, DEFAULTS, shouldRetryFnDefault]

/-- Claim C4 (amended): a transport failure is charged to the
transport-failure counter and a policy-rejected response to the attempt
counter, but the attempt counter counts every attempt (failures
included), so total attempts never exceed
`retries + noResponseRetries + 1`; that maximum is reached only when
the retryable responses come first (two 503s then transport failures
under the defaults gives 5 attempts), while two transport failures
first leave no policy budget and the third attempt's 503 commits. -/
theorem attempt_budget_bound_and_order_dependence (cfg : Config ρ)
    (t : Nat → Outcome ε ρ β) :
    (run cfg t 0 0).1 ≤ cfg.retries + cfg.noResponseRetries + 1 ∧
    run DEFAULTS retryableThenFailures 0 0 = (5, RunResult.err 5) ∧
    run DEFAULTS twoFailuresThenRetryable 0 0 = (3, RunResult.ok 503 0) := by
  refine ⟨?_, ?_, ?_⟩
  · have := run_fst_le cfg t 0 0
    omega
  · simp [run, retryableThenFailures, DEFAULTS, shouldRetryFnDefault]
  · simp [run, twoFailuresThenRetryable, DEFAULTS, shouldRetryFnDefault]

/-- Claim C5: in callback mode, for every configuration and every
transport that produces exactly one outcome per started attempt, the
caller's completion callback is invoked exactly once over the whole
logical request — never zero times and never more than once, however
many retries occur. -/
theorem callback_invoked_exactly_once (cfg : Config ρ) (t : Nat → Outcome ε ρ β) :
    List.countP CbEv.isCallbackInvoked (cbTrace cfg t 0 0) = 1 :=
  cbTrace_callback_count cfg t 0 0

/-- Claim C6 counterexample: `abort()` called while the session is
non-terminal (retry timer armed after a retryable 503) does not stop
the logical request — the armed timer still fires, attempt 2 starts
after the abort, and its 200 outcome is processed and delivered
(`numAttempts = 2`, terminal phase `finished`), refuting "no further
attempt is ever started and no callback invocation is delivered
afterwards". -/
theorem abort_then_retry_still_runs :
    (runActions DEFAULTS initialState (abortScenario.take 2)).phase
      = (Phase.timerArmed : Phase Nat Int Nat) ∧
    runActions DEFAULTS initialState abortScenario =
      { numAttempts := 2
        numNoResponseAttempts := 0
        phase := Phase.finished (RunResult.ok 200 0)
        transportAborts := 1 } :=
  ⟨rfl, rfl⟩

/-- Claim C6 (amended): `abort()` only invokes the transport's own
abort on the most recent attempt's handle; it cancels no armed
retry-delay timer and sets no terminal flag — the session's phase and
counters are unchanged, and a timer armed before the abort still fires
and starts a further attempt. -/
theorem abort_only_pokes_transport (cfg : Config ρ) (s : SessionState ε ρ β)
    (h : s.phase = Phase.timerArmed) :
    (step cfg s Action.abortCalled).phase = Phase.timerArmed ∧
    (step cfg s Action.abortCalled).numAttempts = s.numAttempts ∧
    (step cfg s Action.abortCalled).numNoResponseAttempts = s.numNoResponseAttempts ∧
    (step cfg (step cfg s Action.abortCalled) Action.timerFires).phase = Phase.inFlight ∧
    (step cfg (step cfg s Action.abortCalled) Action.timerFires).numAttempts = s.numAttempts + 1 := by
  have hab : step cfg s Action.abortCalled =
      if 1 ≤ s.numAttempts then { s with transportAborts := s.transportAborts + 1 } else s := rfl
  by_cases hc : 1 ≤ s.numAttempts <;>
    simp [hab, hc, step, h]

/-- Claim C6 amended witness: the amended statement at a concrete
timer-armed state under the default configuration. -/
theorem abort_only_pokes_transport_witness :
    (step DEFAULTS armedState Action.abortCalled).phase = Phase.timerArmed ∧
    (step DEFAULTS armedState Action.abortCalled).numAttempts = armedState.numAttempts ∧
    (step DEFAULTS armedState Action.abortCalled).numNoResponseAttempts
      = armedState.numNoResponseAttempts ∧
    (step DEFAULTS (step DEFAULTS armedState Action.abortCalled) Action.timerFires).phase
      = Phase.inFlight ∧
    (step DEFAULTS (step DEFAULTS armedState Action.abortCalled) Action.timerFires).numAttempts
      = armedState.numAttempts + 1 :=
  abort_only_pokes_transport DEFAULTS armedState rfl

/-- Claim C7: for every `attemptNumber ≥ 1` and every jitter value `j`
in `[0, 1000)` milliseconds, the default-configuration backoff equals
`2 ^ attemptNumber * 1000 + floor j`, hence lies within
`[2 ^ attemptNumber * 1000, 2 ^ attemptNumber * 1000 + 1000)`. -/
theorem default_delay_exponential_bounds (n : Nat) (_hn : 1 ≤ n) (j : ℚ)
    (h0 : 0 ≤ j) (h1 : j < 1000) :
    getNextRetryDelay n j = 2 ^ n * 1000 + ⌊j⌋ ∧
    2 ^ n * 1000 ≤ getNextRetryDelay n j ∧
    getNextRetryDelay n j < 2 ^ n * 1000 + 1000 := by
  have hf0 : (0:ℤ) ≤ ⌊j⌋ := Int.floor_nonneg.mpr h0
  have hf1 : (⌊j⌋ : ℤ) < 1000 := by
    have h2 : (⌊j⌋ : ℚ) < 1000 := lt_of_le_of_lt (Int.floor_le j) h1
    exact_mod_cast h2
  refine ⟨rfl, ?_, ?_⟩ <;> (unfold getNextRetryDelay; linarith)

/-- Claim C7 witness: attempt number 1 with jitter 1/2 gives a delay of
exactly `2 ^ 1 * 1000 + 0 = 2000` milliseconds, inside the claimed
window. -/
theorem default_delay_exponential_bounds_witness :
    (1:Nat) ≤ 1 ∧ (0:ℚ) ≤ 1/2 ∧ (1/2:ℚ) < 1000 ∧
    (getNextRetryDelay 1 (1/2) = 2 ^ 1 * 1000 + ⌊(1/2:ℚ)⌋ ∧
      2 ^ 1 * 1000 ≤ getNextRetryDelay 1 (1/2) ∧
      getNextRetryDelay 1 (1/2) < 2 ^ 1 * 1000 + 1000) :=
  ⟨le_refl 1, by norm_num, by norm_num,
    default_delay_exponential_bounds 1 (le_refl 1) (1/2) (by norm_num) (by norm_num)⟩

/-- Claim C8: for every attempt number, every jitter value and every
configuration with a `maxRetryDelay` ceiling, the configuration-driven
delay never exceeds `maxRetryDelay * 1000` milliseconds. -/
theorem delay_capped_by_max_retry_delay (m : ℚ) (n : Nat)
    (maxRetryDelay totalTimeout elapsedMs j : ℚ) :
    getNextRetryDelayCfg m n maxRetryDelay totalTimeout elapsedMs j ≤ maxRetryDelay * 1000 :=
  le_trans (min_le_left _ _) (min_le_right _ _)

/-- Claim C9: in streaming mode, a logical request that commits emits
exactly one `request` notification per physical attempt actually
started (its trace is that many `request` events), followed by exactly
one `response` and one `complete` event carrying the final attempt's
data. -/
theorem stream_commit_event_counts (cfg : Config ρ) (t : Nat → Outcome ε ρ β)
    (r : ρ) (b : β) (hok : (run cfg t 0 0).2 = RunResult.ok r b) :
    streamTrace cfg t 0 0 =
      List.replicate (run cfg t 0 0).1 StreamEv.request ++
        [StreamEv.response r, StreamEv.complete] ∧
    List.countP StreamEv.isRequest (streamTrace cfg t 0 0) = (run cfg t 0 0).1 ∧
    List.countP StreamEv.isResponse (streamTrace cfg t 0 0) = 1 ∧
    List.countP StreamEv.isComplete (streamTrace cfg t 0 0) = 1 := by
  have h := streamTrace_eq_run cfg t 0 0
  rw [hok] at h
  simp only [terminalEvents, Nat.sub_zero] at h
  refine ⟨h, ?_, ?_, ?_⟩ <;>
    rw [h] <;>
    simp [List.countP_append, countP_replicate, List.countP_cons,
      StreamEv.isRequest, StreamEv.isResponse, StreamEv.isComplete]

/-- Claim C9 witness: a transport committing on attempt 2 (503 then
200) under the defaults emits two `request` events, one `response` and
one `complete`. -/
theorem stream_commit_event_counts_witness :
    (run DEFAULTS succeedsOnSecond 0 0).2 = RunResult.ok 200 0 ∧
    (streamTrace DEFAULTS succeedsOnSecond 0 0 =
        List.replicate (run DEFAULTS succeedsOnSecond 0 0).1 StreamEv.request ++
          [StreamEv.response 200, StreamEv.complete] ∧
      List.countP StreamEv.isRequest (streamTrace DEFAULTS succeedsOnSecond 0 0) =
        (run DEFAULTS succeedsOnSecond 0 0).1 ∧
      List.countP StreamEv.isResponse (streamTrace DEFAULTS succeedsOnSecond 0 0) = 1 ∧
      List.countP StreamEv.isComplete (streamTrace DEFAULTS succeedsOnSecond 0 0) = 1) := by
  have hok : (run DEFAULTS succeedsOnSecond 0 0).2 = RunResult.ok 200 0 := by
    simp [run, succeedsOnSecond, DEFAULTS, shouldRetryFnDefault]
  exact ⟨hok, stream_commit_event_counts DEFAULTS succeedsOnSecond 200 0 hok⟩

/-- Claim C10: the entry point mutates the very object the caller
passed as `opts` — defaulting writes `retries`, `request` and
`shouldRetryFn` onto it in place (visible to the caller; other heap
objects untouched); when `opts` is omitted but a callback is given, the
writes land on the caller's callback function object; when both are
omitted, the shared module-level `DEFAULTS` object itself is aliased as
the options, not a copy. -/
theorem entry_mutates_caller_options (heap : Nat → OptsRecord) (r : Nat)
    (hmiss : heap r = emptyOptsRecord) :
    ((setupOpts heap (OptsArg.given r)).2 = r ∧
      ((setupOpts heap (OptsArg.given r)).1 r).retries = some 2 ∧
      ((setupOpts heap (OptsArg.given r)).1 r).request = DEFAULTSobj.request ∧
      ((setupOpts heap (OptsArg.given r)).1 r).shouldRetryFn = DEFAULTSobj.shouldRetryFn ∧
      (∀ r2, r2 ≠ r → (setupOpts heap (OptsArg.given r)).1 r2 = heap r2)) ∧
    ((setupOpts heap (OptsArg.functionArg r)).2 = r ∧
      ((setupOpts heap (OptsArg.functionArg r)).1 r).retries = some 2) ∧
    (setupOpts heap OptsArg.omitted).2 = defaultsRef := by
  refine ⟨⟨rfl, ?_, ?_, ?_, ?_⟩, ⟨rfl, ?_⟩, rfl⟩
  · simp [setupOpts, optsTargetRef, normalizeOpts, hmiss, emptyOptsRecord, DEFAULTSobj]
  · simp [setupOpts, optsTargetRef, normalizeOpts, hmiss, emptyOptsRecord, DEFAULTSobj]
  · simp [setupOpts, optsTargetRef, normalizeOpts, hmiss, emptyOptsRecord, DEFAULTSobj]
  · intro r2 hne
    simp [setupOpts, optsTargetRef, Function.update_noteq hne]
  · simp [setupOpts, optsTargetRef, normalizeOpts, hmiss, emptyOptsRecord, DEFAULTSobj]

/-- Claim C10 witness: the mutation-in-place statement at a concrete
heap whose every object starts with no defaultable property set, with
the caller's object at reference 1. -/
theorem entry_mutates_caller_options_witness :
    ((setupOpts (fun _ => emptyOptsRecord) (OptsArg.given 1)).2 = 1 ∧
      ((setupOpts (fun _ => emptyOptsRecord) (OptsArg.given 1)).1 1).retries = some 2 ∧
      ((setupOpts (fun _ => emptyOptsRecord) (OptsArg.given 1)).1 1).request = DEFAULTSobj.request ∧
      ((setupOpts (fun _ => emptyOptsRecord) (OptsArg.given 1)).1 1).shouldRetryFn
        = DEFAULTSobj.shouldRetryFn ∧
      (∀ r2, r2 ≠ 1 →
        (setupOpts (fun _ => emptyOptsRecord) (OptsArg.given 1)).1 r2 = emptyOptsRecord)) ∧
    ((setupOpts (fun _ => emptyOptsRecord) (OptsArg.functionArg 1)).2 = 1 ∧
      ((setupOpts (fun _ => emptyOptsRecord) (OptsArg.functionArg 1)).1 1).retries = some 2) ∧
    (setupOpts (fun _ => emptyOptsRecord) OptsArg.omitted).2 = defaultsRef :=
  entry_mutates_caller_options (fun _ => emptyOptsRecord) 1 rfl

end RetryRequest
